import Mathlib

/-!
# Verification of the serde-ubjson encoder

A shallow embedding of the UBJSON serializer (`src/ser.rs`, `src/marker.rs`,
`src/error.rs`) into Lean, together with theorems settling the behavioural
claims about integer narrowing, container framing, map-key restrictions and
the error taxonomy.

Bytes are modelled as natural numbers below 256; the output sink is a
`List Nat` of bytes.  Signed machine integers are modelled as `Int` with the
two's-complement byte image taken explicitly via `% 2^w`; unsigned ones as
`Nat`.  The byte sink of `to_vec` (a growable vector) never fails, so the
scalar emission functions are pure; failure (used by the map-key serializer)
is modelled with `Except`.
-/

/-! ## Marker bytes, from `src/marker.rs` -/

namespace marker

def NULL : Nat := 90
def NOOP : Nat := 78
def TRUE : Nat := 84
def FALSE : Nat := 70
def I8 : Nat := 105
def U8 : Nat := 85
def I16 : Nat := 73
def I32 : Nat := 108
def I64 : Nat := 76
def F32 : Nat := 100
def F64 : Nat := 68
def HI_PRECISION : Nat := 72
def CHAR : Nat := 67
def STRING : Nat := 83
def ARR_START : Nat := 91
def ARR_END : Nat := 93
def OBJ_START : Nat := 123
def OBJ_END : Nat := 125
def TYPE : Nat := 36
def LENGTH : Nat := 35

end marker

/-! ## Byte-level helpers

`beBytes k n` is the big-endian `k`-byte image of `n`, exactly what
`byteorder::BigEndian` writes for a `k`-byte machine integer whose
unsigned bit pattern is `n`. -/

def beBytes : Nat → Nat → List Nat
  | 0, _ => []
  | k + 1, n => beBytes k (n / 256) ++ [n % 256]

/-- Fuel-driven decimal digit writer: ASCII bytes of `n` in base 10,
most significant first, matching Rust's `u64::to_string`.  The fuel is
always sufficient because `decAscii` passes `n + 1`. -/
def decAsciiCore : Nat → Nat → List Nat
  | 0, _ => []
  | fuel + 1, n => if n < 10 then [48 + n] else decAsciiCore fuel (n / 10) ++ [48 + n % 10]

/-- ASCII bytes of the decimal representation of `n` (`v.to_string()` in the
source). -/
def decAscii (n : Nat) : List Nat :=
  decAsciiCore (n + 1) n

theorem decAsciiCore_congr (n : Nat) : ∀ (f1 f2 : Nat), n < f1 → n < f2 →
    decAsciiCore f1 n = decAsciiCore f2 n := by
  induction n using Nat.strong_induction_on with
  | _ n ih =>
    intro f1 f2 h1 h2
    obtain ⟨g1, rfl⟩ : ∃ g1, f1 = g1 + 1 := ⟨f1 - 1, by omega⟩
    obtain ⟨g2, rfl⟩ : ∃ g2, f2 = g2 + 1 := ⟨f2 - 1, by omega⟩
    simp only [decAsciiCore]
    by_cases hn : n < 10
    · simp [hn]
    · have hd : n / 10 < n := by omega
      rw [if_neg hn, if_neg hn, ih (n / 10) hd g1 g2 (by omega) (by omega)]

theorem decAscii_base (n : Nat) (hn : n < 10) : decAscii n = [48 + n] := by
  simp [decAscii, decAsciiCore, hn]

theorem decAscii_step (n : Nat) (hn : ¬ n < 10) :
    decAscii n = decAscii (n / 10) ++ [48 + n % 10] := by
  show decAsciiCore (n + 1) n = decAscii (n / 10) ++ [48 + n % 10]
  rw [decAsciiCore, if_neg hn, decAsciiCore_congr (n / 10) n (n / 10 + 1) (by omega) (by omega)]
  rfl

theorem decAscii_length_le : ∀ n : Nat, 1 ≤ n → (decAscii n).length ≤ n := by
  intro n
  induction n using Nat.strong_induction_on with
  | _ n ih =>
    intro h1
    by_cases hn : n < 10
    · rw [decAscii_base n hn]
      simp
      omega
    · have hd : n / 10 < n := by omega
      have h10 : 1 ≤ n / 10 := by omega
      have := ih (n / 10) hd h10
      rw [decAscii_step n hn]
      simp only [List.length_append, List.length_cons, List.length_nil]
      omega

theorem decAscii_length_lt (n : Nat) (h2 : 2 ≤ n) : (decAscii n).length < n := by
  by_cases hn : n < 10
  · rw [decAscii_base n hn]
    simp
    omega
  · have := decAscii_length_le (n / 10) (by omega)
    rw [decAscii_step n hn]
    simp only [List.length_append, List.length_cons, List.length_nil]
    omega

/-! ## Scalar emission, from `src/ser.rs` (`impl ser::Serializer for &mut Serializer<W>`)

Each `serialize_*` function returns the bytes the source writes to the sink.
Domains: `serialize_iN` takes an `Int` in the `N`-bit signed range,
`serialize_uN` a `Nat` in the `N`-bit unsigned range; the range conditions
appear as hypotheses of the theorems. -/

/-- `serialize_bool`: marker `T` or `F`, no payload. -/
def serialize_bool (v : Bool) : List Nat :=
  [if v then marker.TRUE else marker.FALSE]

/-- `serialize_i8`: marker `i`, then the value's byte (two's complement). -/
def serialize_i8 (v : Int) : List Nat :=
  marker.I8 :: beBytes 1 ((v % 256).toNat)

/-- `serialize_u8`: marker `U`, then the raw byte. -/
def serialize_u8 (v : Nat) : List Nat :=
  [marker.U8, v]

/-- `serialize_i16`: narrow to `i8` or `u8` when the value fits, else marker
`I` and the 2-byte big-endian two's complement image. -/
def serialize_i16 (v : Int) : List Nat :=
  if -128 ≤ v ∧ v ≤ 127 then serialize_i8 v
  else if 0 ≤ v ∧ v ≤ 255 then serialize_u8 v.toNat
  else marker.I16 :: beBytes 2 ((v % 65536).toNat)

/-- `serialize_i32`: narrow through `serialize_i16` when the value fits `i16`,
else marker `l` and 4 big-endian bytes. -/
def serialize_i32 (v : Int) : List Nat :=
  if -32768 ≤ v ∧ v ≤ 32767 then serialize_i16 v
  else marker.I32 :: beBytes 4 ((v % 4294967296).toNat)

/-- `serialize_i64`: narrow through `serialize_i32` when the value fits `i32`,
else marker `L` and 8 big-endian bytes. -/
def serialize_i64 (v : Int) : List Nat :=
  if -2147483648 ≤ v ∧ v ≤ 2147483647 then serialize_i32 v
  else marker.I64 :: beBytes 8 ((v % 18446744073709551616).toNat)

/-- `serialize_u16`: narrow to `u8`, else reroute through the signed widths. -/
def serialize_u16 (v : Nat) : List Nat :=
  if v ≤ 255 then serialize_u8 v
  else if v ≤ 32767 then serialize_i16 (v : Int)
  else serialize_i32 (v : Int)

/-- `serialize_u32`: narrow to `u16`, else reroute through the signed widths. -/
def serialize_u32 (v : Nat) : List Nat :=
  if v ≤ 65535 then serialize_u16 v
  else if v ≤ 2147483647 then serialize_i32 (v : Int)
  else serialize_i64 (v : Int)

/-- `serialize_u64`: narrow to `u32` or `i64`; beyond `i64::MAX` fall back to
the high-precision form: marker `H`, then the decimal string's length via
`serialize_u64` itself, then the decimal ASCII bytes. -/
def serialize_u64 (v : Nat) : List Nat :=
  if v ≤ 4294967295 then serialize_u32 v
  else if v ≤ 9223372036854775807 then serialize_i64 (v : Int)
  else marker.HI_PRECISION :: (serialize_u64 (decAscii v).length ++ decAscii v)
termination_by v
decreasing_by
  have := decAscii_length_lt v (by omega)
  omega

/-- `serialize_f32`: marker `d` plus the 4-byte big-endian IEEE-754 image;
`bits` is the value's bit pattern (the bytes `write_f32::<BigEndian>` emits). -/
def serialize_f32 (bits : Nat) : List Nat :=
  marker.F32 :: beBytes 4 bits

/-- `serialize_f64`: marker `D` plus the 8-byte big-endian IEEE-754 image. -/
def serialize_f64 (bits : Nat) : List Nat :=
  marker.F64 :: beBytes 8 bits

/-- `serialize_char`: ASCII scalars get marker `C` plus the raw byte, larger
scalars are rerouted through `serialize_u32`. `v` is the Unicode scalar value. -/
def serialize_char (v : Nat) : List Nat :=
  if v ≤ 127 then [marker.CHAR, v]
  else serialize_u32 v

/-- `serialize_str`: marker `S`, the byte length through `serialize_u64`, then
the raw UTF-8 bytes. `s` is the string's UTF-8 byte list. -/
def serialize_str (s : List Nat) : List Nat :=
  marker.STRING :: (serialize_u64 s.length ++ s)

/-- `serialize_bytes`: the fixed header `[ $ U #`, the element count through
`serialize_u64`, then the raw bytes verbatim. -/
def serialize_bytes (v : List Nat) : List Nat :=
  [marker.ARR_START, marker.TYPE, marker.U8, marker.LENGTH] ++ (serialize_u64 v.length ++ v)

/-- `serialize_none`: the single null marker `Z`. -/
def serialize_none : List Nat :=
  [marker.NULL]

/-! ## Sanity vectors, mirroring `tests/ser.rs` -/

theorem test_vectors_signed :
    serialize_i8 (-128) = [105, 128]
    ∧ serialize_i16 (-129) = [73, 255, 127]
    ∧ serialize_i16 128 = [85, 128]
    ∧ serialize_i16 256 = [73, 1, 0]
    ∧ serialize_i32 (-32769) = [108, 255, 255, 127, 255]
    ∧ serialize_i64 (-2147483649) = [76, 255, 255, 255, 255, 127, 255, 255, 255]
    ∧ serialize_i64 9223372036854775807 = [76, 127, 255, 255, 255, 255, 255, 255, 255] := by
  refine ⟨rfl, ?_, ?_, ?_, ?_, ?_, ?_⟩ <;> decide

theorem test_vectors_unsigned :
    serialize_u16 65535 = [108, 0, 0, 255, 255]
    ∧ serialize_u32 4294967295 = [76, 0, 0, 0, 0, 255, 255, 255, 255]
    ∧ serialize_char 65 = [67, 65]
    ∧ serialize_char 192 = [85, 192]
    ∧ serialize_char 44032 = [108, 0, 0, 172, 0] := by
  refine ⟨?_, ?_, ?_, ?_, ?_⟩ <;> decide

/-! ## The spec's marker ordering

`smallestMarker` is modelled from the spec's words, not from the source: it
returns the first marker in the ordering `i, U, I, l, L, H` whose range can
represent the given integer losslessly (`H`, high precision, represents every
integer).  `smallestMarkerUnsigned` is the same ordering with the signed-8
slot removed, matching the behaviour the code actually implements for the
unsigned entry points. -/

def smallestMarker (v : Int) : Nat :=
  if -128 ≤ v ∧ v ≤ 127 then marker.I8
  else if 0 ≤ v ∧ v ≤ 255 then marker.U8
  else if -32768 ≤ v ∧ v ≤ 32767 then marker.I16
  else if -2147483648 ≤ v ∧ v ≤ 2147483647 then marker.I32
  else if -9223372036854775808 ≤ v ∧ v ≤ 9223372036854775807 then marker.I64
  else marker.HI_PRECISION

def smallestMarkerUnsigned (v : Nat) : Nat :=
  if v ≤ 255 then marker.U8
  else if v ≤ 32767 then marker.I16
  else if v ≤ 2147483647 then marker.I32
  else if v ≤ 9223372036854775807 then marker.I64
  else marker.HI_PRECISION

/-! ## Head-marker lemmas for each emission operation -/

theorem serialize_i8_head (v : Int) (h1 : -128 ≤ v) (h2 : v ≤ 127) :
    (serialize_i8 v).head? = some (smallestMarker v) := by
  unfold serialize_i8 smallestMarker
  split_ifs <;> first | rfl | omega

theorem serialize_i16_head (v : Int) (h1 : -32768 ≤ v) (h2 : v ≤ 32767) :
    (serialize_i16 v).head? = some (smallestMarker v) := by
  unfold serialize_i16 serialize_i8 serialize_u8 smallestMarker
  split_ifs <;> first | rfl | omega

theorem serialize_i32_head (v : Int) (h1 : -2147483648 ≤ v) (h2 : v ≤ 2147483647) :
    (serialize_i32 v).head? = some (smallestMarker v) := by
  unfold serialize_i32
  split_ifs with hc
  · exact serialize_i16_head v hc.1 hc.2
  · unfold smallestMarker
    split_ifs <;> first | rfl | omega

theorem serialize_i64_head (v : Int) (h1 : -9223372036854775808 ≤ v)
    (h2 : v ≤ 9223372036854775807) :
    (serialize_i64 v).head? = some (smallestMarker v) := by
  unfold serialize_i64
  split_ifs with hc
  · exact serialize_i32_head v hc.1 hc.2
  · unfold smallestMarker
    split_ifs <;> first | rfl | omega

theorem serialize_u8_head (n : Nat) (h : n ≤ 255) :
    (serialize_u8 n).head? = some (smallestMarkerUnsigned n) := by
  unfold serialize_u8 smallestMarkerUnsigned
  rw [if_pos h]
  rfl

theorem serialize_u16_head (n : Nat) (h : n ≤ 65535) :
    (serialize_u16 n).head? = some (smallestMarkerUnsigned n) := by
  unfold serialize_u16
  split_ifs with h1 h2
  · exact serialize_u8_head n h1
  · unfold serialize_i16 serialize_i8 serialize_u8 smallestMarkerUnsigned
    split_ifs <;> first | rfl | omega
  · unfold serialize_i32 serialize_i16 serialize_i8 serialize_u8 smallestMarkerUnsigned
    split_ifs <;> first | rfl | omega

theorem serialize_u32_head (n : Nat) (h : n ≤ 4294967295) :
    (serialize_u32 n).head? = some (smallestMarkerUnsigned n) := by
  unfold serialize_u32
  split_ifs with h1 h2
  · exact serialize_u16_head n h1
  · unfold serialize_i32 serialize_i16 serialize_i8 serialize_u8 smallestMarkerUnsigned
    split_ifs <;> first | rfl | omega
  · unfold serialize_i64 serialize_i32 serialize_i16 serialize_i8 serialize_u8
      smallestMarkerUnsigned
    split_ifs <;> first | rfl | omega

theorem serialize_u64_head (n : Nat) (h : n ≤ 18446744073709551615) :
    (serialize_u64 n).head? = some (smallestMarkerUnsigned n) := by
  rw [serialize_u64]
  split_ifs with h1 h2
  · exact serialize_u32_head n h1
  · unfold serialize_i64 serialize_i32 serialize_i16 serialize_i8 serialize_u8
      smallestMarkerUnsigned
    split_ifs <;> first | rfl | omega
  · unfold smallestMarkerUnsigned
    split_ifs <;> first | rfl | omega

/-- `serialize_u64` on the narrow range is plain `serialize_u32`. -/
theorem serialize_u64_le (v : Nat) (h : v ≤ 4294967295) :
    serialize_u64 v = serialize_u32 v := by
  rw [serialize_u64, if_pos h]

/-- `serialize_u64` beyond `i64::MAX` takes the high-precision branch. -/
theorem serialize_u64_gt (v : Nat) (h : 9223372036854775807 < v) :
    serialize_u64 v = marker.HI_PRECISION ::
      (serialize_u64 (decAscii v).length ++ decAscii v) := by
  rw [serialize_u64, if_neg (show ¬ v ≤ 4294967295 by omega),
    if_neg (show ¬ v ≤ 9223372036854775807 by omega)]

/-! ## Error types

`ErrorImpl` is the private enum of `src/error.rs` (variants `Message` and
`Io`); `IoErr` stands in for the opaque `std::io::Error` payload.  `Error` is
the error type `src/ser.rs` actually uses: it constructs `Error::Io`,
`Error::KeyMustBeAString` and, through `ser::Error::custom`, a message kind.
The source names are `Io`, `Message` and `KeyMustBeAString`. -/

structure IoErr where
  code : Nat

/-- The error enum as declared in `src/error.rs` (two variants only). -/
inductive ErrorImpl where
  | message (msg : String)
  | ioFailure (e : IoErr)

/-- The error type as consumed by `src/ser.rs`. -/
inductive Error where
  | ioFailure (e : IoErr)
  | message (msg : String)
  | keyMustBeAString

/-! ## Compound framing, from `src/ser.rs`

`serialize_seq`/`serialize_map` write the opening marker, and for a known
length also `#` plus the length through the integer-narrowing path (serde
serializes the `usize` length via `serialize_u64`); they return a `Dynamic`
writer whose `length_known` flag is the `Option.isSome` of the length.
`serialize_tuple` always writes `[`, `#` and the length.  `Static::end` writes
nothing; `Dynamic::end` writes the closing marker only when the length was
unknown. -/

def serialize_seq_header (len : Option Nat) : List Nat :=
  marker.ARR_START :: (match len with
    | some n => marker.LENGTH :: serialize_u64 n
    | none => [])

def serialize_map_header (len : Option Nat) : List Nat :=
  marker.OBJ_START :: (match len with
    | some n => marker.LENGTH :: serialize_u64 n
    | none => [])

def serialize_tuple_header (len : Nat) : List Nat :=
  [marker.ARR_START, marker.LENGTH] ++ serialize_u64 len

/-- `Dynamic::end` for `SerializeSeq`: nothing when the length was known,
otherwise the `]` marker. -/
def Dynamic_seq_end (length_known : Bool) : List Nat :=
  if length_known then [] else [marker.ARR_END]

/-- `Dynamic::end` for `SerializeMap`: nothing when the length was known,
otherwise the `}` marker. -/
def Dynamic_map_end (length_known : Bool) : List Nat :=
  if length_known then [] else [marker.OBJ_END]

/-- `Static::end`: always `Ok(())`, writing nothing. -/
def Static_end : List Nat := []

/-! ## The serde data model

`Value` is the closed protocol of calls the external visitor can issue
against the serializer, one constructor per `serialize_*` entry point.
Strings carry their UTF-8 bytes, floats their IEEE-754 bit patterns,
chars their Unicode scalar value.  Compound constructors carry the length
argument passed at open time together with the elements the visitor then
appends, so a declared length need not match the element count. -/

inductive Value where
  | vBool (b : Bool)
  | vI8 (v : Int)
  | vI16 (v : Int)
  | vI32 (v : Int)
  | vI64 (v : Int)
  | vU8 (n : Nat)
  | vU16 (n : Nat)
  | vU32 (n : Nat)
  | vU64 (n : Nat)
  | vF32 (bits : Nat)
  | vF64 (bits : Nat)
  | vChar (c : Nat)
  | vStr (s : List Nat)
  | vBytes (b : List Nat)
  | vNone
  | vSome (v : Value)
  | vUnit
  | vUnitStruct (name : String)
  | vUnitVariant (idx : Nat)
  | vNewtypeStruct (name : String) (v : Value)
  | vNewtypeVariant (idx : Nat) (v : Value)
  | vSeq (len : Option Nat) (elems : List Value)
  | vTuple (len : Nat) (elems : List Value)
  | vTupleVariant (idx : Nat) (len : Nat) (elems : List Value)
  | vMap (len : Option Nat) (pairs : List (Value × Value))

/-- The `MapKeySerializer` of `src/ser.rs`: a string key is written as its
length (through the narrowing path, no `S` marker) followed by its raw bytes;
every other entry point returns `Err(Error::KeyMustBeAString)` before writing
anything. -/
def MapKeySerializer_serialize : Value → Except Error (List Nat)
  | Value.vStr s => Except.ok (serialize_u64 s.length ++ s)
  | Value.vBool _ => Except.error Error.keyMustBeAString
  | Value.vI8 _ => Except.error Error.keyMustBeAString
  | Value.vI16 _ => Except.error Error.keyMustBeAString
  | Value.vI32 _ => Except.error Error.keyMustBeAString
  | Value.vI64 _ => Except.error Error.keyMustBeAString
  | Value.vU8 _ => Except.error Error.keyMustBeAString
  | Value.vU16 _ => Except.error Error.keyMustBeAString
  | Value.vU32 _ => Except.error Error.keyMustBeAString
  | Value.vU64 _ => Except.error Error.keyMustBeAString
  | Value.vF32 _ => Except.error Error.keyMustBeAString
  | Value.vF64 _ => Except.error Error.keyMustBeAString
  | Value.vChar _ => Except.error Error.keyMustBeAString
  | Value.vBytes _ => Except.error Error.keyMustBeAString
  | Value.vNone => Except.error Error.keyMustBeAString
  | Value.vSome _ => Except.error Error.keyMustBeAString
  | Value.vUnit => Except.error Error.keyMustBeAString
  | Value.vUnitStruct _ => Except.error Error.keyMustBeAString
  | Value.vUnitVariant _ => Except.error Error.keyMustBeAString
  | Value.vNewtypeStruct _ _ => Except.error Error.keyMustBeAString
  | Value.vNewtypeVariant _ _ => Except.error Error.keyMustBeAString
  | Value.vSeq _ _ => Except.error Error.keyMustBeAString
  | Value.vTuple _ _ => Except.error Error.keyMustBeAString
  | Value.vTupleVariant _ _ _ => Except.error Error.keyMustBeAString
  | Value.vMap _ _ => Except.error Error.keyMustBeAString

/-! ## Serializing a described value

`serializeValue` is the composition the serde framework performs: dispatch on
the value's kind, call the matching `serialize_*` entry point, and for
compounds append each element and close the writer.  `serializeElems` is a
`Static`/`Dynamic` writer's `serialize_element` loop; `serializePairs` is the
`serialize_key`/`serialize_value` loop of a map, keys routed through
`MapKeySerializer`. -/

mutual

def serializeValue : Value → Except Error (List Nat)
  | Value.vBool b => Except.ok (serialize_bool b)
  | Value.vI8 v => Except.ok (serialize_i8 v)
  | Value.vI16 v => Except.ok (serialize_i16 v)
  | Value.vI32 v => Except.ok (serialize_i32 v)
  | Value.vI64 v => Except.ok (serialize_i64 v)
  | Value.vU8 n => Except.ok (serialize_u8 n)
  | Value.vU16 n => Except.ok (serialize_u16 n)
  | Value.vU32 n => Except.ok (serialize_u32 n)
  | Value.vU64 n => Except.ok (serialize_u64 n)
  | Value.vF32 bits => Except.ok (serialize_f32 bits)
  | Value.vF64 bits => Except.ok (serialize_f64 bits)
  | Value.vChar c => Except.ok (serialize_char c)
  | Value.vStr s => Except.ok (serialize_str s)
  | Value.vBytes b => Except.ok (serialize_bytes b)
  | Value.vNone => Except.ok serialize_none
  | Value.vSome v => serializeValue v
  | Value.vUnit => Except.ok serialize_none
  | Value.vUnitStruct _ => Except.ok serialize_none
  | Value.vUnitVariant idx => Except.ok (serialize_u32 idx)
  | Value.vNewtypeStruct _ v => serializeValue v
  | Value.vNewtypeVariant idx v =>
    match serializeValue v with
    | Except.error e => Except.error e
    | Except.ok b =>
      Except.ok (serialize_tuple_header 2 ++ serialize_u32 idx ++ b ++ Static_end)
  | Value.vSeq len elems =>
    match serializeElems elems with
    | Except.error e => Except.error e
    | Except.ok body =>
      Except.ok (serialize_seq_header len ++ body ++ Dynamic_seq_end len.isSome)
  | Value.vTuple len elems =>
    match serializeElems elems with
    | Except.error e => Except.error e
    | Except.ok body => Except.ok (serialize_tuple_header len ++ body ++ Static_end)
  | Value.vTupleVariant idx len elems =>
    match serializeElems elems with
    | Except.error e => Except.error e
    | Except.ok body =>
      Except.ok (serialize_tuple_header (len + 1) ++ serialize_u32 idx ++ body ++ Static_end)
  | Value.vMap len pairs =>
    match serializePairs pairs with
    | Except.error e => Except.error e
    | Except.ok body =>
      Except.ok (serialize_map_header len ++ body ++ Dynamic_map_end len.isSome)
termination_by v => sizeOf v

def serializeElems : List Value → Except Error (List Nat)
  | [] => Except.ok []
  | v :: rest =>
    match serializeValue v with
    | Except.error e => Except.error e
    | Except.ok b =>
      match serializeElems rest with
      | Except.error e => Except.error e
      | Except.ok bs => Except.ok (b ++ bs)
termination_by l => sizeOf l

def serializePairs : List (Value × Value) → Except Error (List Nat)
  | [] => Except.ok []
  | (k, v) :: rest =>
    match MapKeySerializer_serialize k with
    | Except.error e => Except.error e
    | Except.ok kb =>
      match serializeValue v with
      | Except.error e => Except.error e
      | Except.ok vb =>
        match serializePairs rest with
        | Except.error e => Except.error e
        | Except.ok bs => Except.ok (kb ++ vb ++ bs)
termination_by l => sizeOf l

end

/-- Unfolding lemma: the element loop on the empty list. -/
theorem serializeElems_nil : serializeElems [] = Except.ok [] := by
  rw [serializeElems]

/-- Unfolding lemma: the pair loop on the empty list. -/
theorem serializePairs_nil : serializePairs [] = Except.ok [] := by
  rw [serializePairs]

/-! ## Claim theorems -/

/-- Claim C1, counterexample: `serialize_u8 0` writes marker `U` (85) although
the smallest marker in the spec's ordering `i, U, I, l, L, H` that represents
0 losslessly is `i` (105), so the marker written is not always the smallest in
that ordering, in particular not for u8 inputs. -/
theorem narrowing_u8_not_globally_minimal :
    serialize_u8 0 = [85, 0] ∧ smallestMarker 0 = 105 ∧
    ¬ (serialize_u8 0).head? = some (smallestMarker 0) :=
  ⟨by decide, by decide, by decide⟩

/-- Claim C1, amended: for the signed emission operations the marker byte
written is the smallest in the ordering `i, U, I, l, L, H` whose range
represents the value losslessly; for the unsigned emission operations it is
the smallest in the same ordering with the signed-8 slot removed
(`U, I, l, L, H`): the `i` marker is never produced for an unsigned input,
even when the value would fit int8. -/
theorem narrowing_minimality :
    (∀ v : Int, -128 ≤ v → v ≤ 127 →
      (serialize_i8 v).head? = some (smallestMarker v))
    ∧ (∀ v : Int, -32768 ≤ v → v ≤ 32767 →
      (serialize_i16 v).head? = some (smallestMarker v))
    ∧ (∀ v : Int, -2147483648 ≤ v → v ≤ 2147483647 →
      (serialize_i32 v).head? = some (smallestMarker v))
    ∧ (∀ v : Int, -9223372036854775808 ≤ v → v ≤ 9223372036854775807 →
      (serialize_i64 v).head? = some (smallestMarker v))
    ∧ (∀ n : Nat, n ≤ 255 → (serialize_u8 n).head? = some (smallestMarkerUnsigned n))
    ∧ (∀ n : Nat, n ≤ 65535 → (serialize_u16 n).head? = some (smallestMarkerUnsigned n))
    ∧ (∀ n : Nat, n ≤ 4294967295 → (serialize_u32 n).head? = some (smallestMarkerUnsigned n))
    ∧ (∀ n : Nat, n ≤ 18446744073709551615 →
      (serialize_u64 n).head? = some (smallestMarkerUnsigned n)) :=
  ⟨serialize_i8_head, serialize_i16_head, serialize_i32_head, serialize_i64_head,
    serialize_u8_head, serialize_u16_head, serialize_u32_head, serialize_u64_head⟩

/-- Witness for the amended claim C1 at the concrete input 300 (a u16). -/
theorem narrowing_minimality_witness :
    (300 : Nat) ≤ 65535 ∧ (serialize_u16 300).head? = some (smallestMarkerUnsigned 300) :=
  ⟨by decide, narrowing_minimality.2.2.2.2.2.1 300 (by decide)⟩

/-- Claim C2: beyond `i64::MAX`, `serialize_u64` writes marker `H`, then the
decimal ASCII string's length through the narrowing path (no `S` marker),
then the digit bytes; at `u64::MAX` the full output is
`48 55 14` followed by the 20 digits of 18446744073709551615. -/
theorem u64_high_precision_encoding :
    (∀ v : Nat, 9223372036854775807 < v →
      serialize_u64 v = marker.HI_PRECISION ::
        (serialize_u64 (decAscii v).length ++ decAscii v))
    ∧ serialize_u64 18446744073709551615 =
      [72, 85, 20, 49, 56, 52, 52, 54, 55, 52, 52, 48, 55, 51, 55, 48, 57, 53, 53, 49, 54, 49, 53] := by
  constructor
  · intro v hv
    exact serialize_u64_gt v hv
  · have hd : decAscii 18446744073709551615 =
        [49, 56, 52, 52, 54, 55, 52, 52, 48, 55, 51, 55, 48, 57, 53, 53, 49, 54, 49, 53] := by
      decide
    have hl : (decAscii 18446744073709551615).length = 20 := by
      rw [hd]
      rfl
    rw [serialize_u64_gt 18446744073709551615 (by norm_num), hl,
      serialize_u64_le 20 (by norm_num), hd]
    decide

/-- Witness for claim C2 at the concrete input `i64::MAX + 1`. -/
theorem u64_high_precision_encoding_witness :
    9223372036854775807 < 9223372036854775808 ∧
    serialize_u64 9223372036854775808 = marker.HI_PRECISION ::
      (serialize_u64 (decAscii 9223372036854775808).length ++ decAscii 9223372036854775808) :=
  ⟨by norm_num, u64_high_precision_encoding.1 9223372036854775808 (by norm_num)⟩

/-- Claim C3: a sequence or map opened with a known length writes no closing
marker after its elements; opened with unknown length, ending it after any
elements (including none) writes exactly the matching closing marker. -/
theorem compound_closing_markers :
    (∀ (n : Nat) (elems : List Value) (body : List Nat),
        serializeElems elems = Except.ok body →
        serializeValue (Value.vSeq (some n) elems) =
          Except.ok (serialize_seq_header (some n) ++ body))
    ∧ (∀ (elems : List Value) (body : List Nat),
        serializeElems elems = Except.ok body →
        serializeValue (Value.vSeq none elems) =
          Except.ok (serialize_seq_header none ++ body ++ [marker.ARR_END]))
    ∧ (∀ (n : Nat) (pairs : List (Value × Value)) (body : List Nat),
        serializePairs pairs = Except.ok body →
        serializeValue (Value.vMap (some n) pairs) =
          Except.ok (serialize_map_header (some n) ++ body))
    ∧ (∀ (pairs : List (Value × Value)) (body : List Nat),
        serializePairs pairs = Except.ok body →
        serializeValue (Value.vMap none pairs) =
          Except.ok (serialize_map_header none ++ body ++ [marker.OBJ_END])) := by
  refine ⟨?_, ?_, ?_, ?_⟩
  · intro n elems body h
    rw [serializeValue, h]
    simp [Dynamic_seq_end]
  · intro elems body h
    rw [serializeValue, h]
    simp [Dynamic_seq_end]
  · intro n pairs body h
    rw [serializeValue, h]
    simp [Dynamic_map_end]
  · intro pairs body h
    rw [serializeValue, h]
    simp [Dynamic_map_end]

/-- Witness for claim C3: an unknown-length sequence with zero elements still
receives the `]` marker. -/
theorem compound_closing_markers_witness :
    serializeElems [] = Except.ok [] ∧
    serializeValue (Value.vSeq none []) =
      Except.ok (serialize_seq_header none ++ [] ++ [marker.ARR_END]) :=
  ⟨serializeElems_nil, compound_closing_markers.2.1 [] [] serializeElems_nil⟩

/-- Claim C4: every non-string map key is rejected with `KeyMustBeAString`
and contributes no bytes; the map pair loop fails the same way and writes no
value for the pair. -/
theorem map_key_rejection :
    (∀ key : Value, (∀ s, key ≠ Value.vStr s) →
        MapKeySerializer_serialize key = Except.error Error.keyMustBeAString)
    ∧ (∀ (key val : Value) (rest : List (Value × Value)), (∀ s, key ≠ Value.vStr s) →
        serializePairs ((key, val) :: rest) = Except.error Error.keyMustBeAString) := by
  have hk : ∀ key : Value, (∀ s, key ≠ Value.vStr s) →
      MapKeySerializer_serialize key = Except.error Error.keyMustBeAString := by
    intro key hkey
    cases key <;> first | rfl | exact absurd rfl (hkey _)
  refine ⟨hk, ?_⟩
  intro key val rest hkey
  rw [serializePairs, hk key hkey]

/-- Witness for claim C4 at the concrete boolean key `true`. -/
theorem map_key_rejection_witness :
    MapKeySerializer_serialize (Value.vBool true) = Except.error Error.keyMustBeAString :=
  map_key_rejection.1 (Value.vBool true) (fun _ h => Value.noConfusion h)

/-- Claim C5 (code bug): the error enum declared in `src/error.rs` has exactly
two kinds, message and I/O, so the key-type violation that `src/ser.rs`
produces (shown at the boolean key `true`) is not a representable value of
that declared public error type. -/
theorem error_impl_lacks_key_kind :
    (∀ e : ErrorImpl, (∃ s, e = ErrorImpl.message s) ∨ (∃ k, e = ErrorImpl.ioFailure k))
    ∧ MapKeySerializer_serialize (Value.vBool true) = Except.error Error.keyMustBeAString := by
  constructor
  · intro e
    cases e with
    | message s => exact Or.inl ⟨s, rfl⟩
    | ioFailure k => exact Or.inr ⟨k, rfl⟩
  · rfl

/-- Claim C6: `Some(v)` and a newtype struct around `v` serialize to exactly
the bytes of `v` alone. -/
theorem some_and_newtype_transparent :
    (∀ v : Value, serializeValue (Value.vSome v) = serializeValue v)
    ∧ (∀ (name : String) (v : Value),
        serializeValue (Value.vNewtypeStruct name v) = serializeValue v) := by
  constructor
  · intro v
    rw [serializeValue]
  · intro name v
    rw [serializeValue]

/-- Claim C7: chars up to scalar value 127 get marker `C` plus the raw byte;
larger scalars are emitted exactly as `serialize_u32` of the scalar value;
in particular 'A' is `43 41` and 'À' (192) is `55 C0`. -/
theorem char_encoding :
    (∀ c : Nat, c ≤ 127 → serialize_char c = [marker.CHAR, c])
    ∧ (∀ c : Nat, 127 < c → serialize_char c = serialize_u32 c)
    ∧ serialize_char 65 = [67, 65]
    ∧ serialize_char 192 = [85, 192] := by
  refine ⟨?_, ?_, by decide, by decide⟩
  · intro c h
    unfold serialize_char
    rw [if_pos h]
  · intro c h
    unfold serialize_char
    rw [if_neg (by omega)]

/-- Witness for claim C7 at the concrete char 'A'. -/
theorem char_encoding_witness :
    (65 : Nat) ≤ 127 ∧ serialize_char 65 = [marker.CHAR, 65] :=
  ⟨by decide, char_encoding.1 65 (by decide)⟩

/-- Claim C8: `serialize_bytes` writes the four header bytes `[ $ U #`, the
length through the unsigned-64 narrowing path, then the raw bytes verbatim,
with no per-element markers and no closing marker. -/
theorem bytes_encoding :
    (∀ b : List Nat, serialize_bytes b =
      [marker.ARR_START, marker.TYPE, marker.U8, marker.LENGTH] ++
        (serialize_u64 b.length ++ b))
    ∧ serialize_bytes [10, 20, 30] = [91, 36, 85, 35, 85, 3, 10, 20, 30] := by
  constructor
  · intro b
    rfl
  · unfold serialize_bytes
    rw [serialize_u64_le (List.length [10, 20, 30]) (by decide)]
    decide

/-- Claim C9: `None`, `Some(None)`, unit and a unit struct all serialize to
the single byte `Z`, although the inputs differ, so the encoding is not
injective across option nesting. -/
theorem null_collapse :
    serializeValue Value.vNone = Except.ok [marker.NULL]
    ∧ serializeValue (Value.vSome Value.vNone) = Except.ok [marker.NULL]
    ∧ serializeValue Value.vUnit = Except.ok [marker.NULL]
    ∧ (∀ name : String, serializeValue (Value.vUnitStruct name) = Except.ok [marker.NULL])
    ∧ Value.vSome Value.vNone ≠ Value.vNone := by
  refine ⟨?_, ?_, ?_, ?_, fun h => Value.noConfusion h⟩
  · rw [serializeValue]
    rfl
  · rw [serializeValue, serializeValue]
    rfl
  · rw [serializeValue]
    rfl
  · intro name
    rw [serializeValue]
    rfl

/-- Claim C10: the fixed-count writer never compares the element count against
the declared length: for every declared length and every (possibly different)
number of appended elements the close succeeds and writes no bytes. -/
theorem static_writer_count_unchecked :
    Static_end = ([] : List Nat)
    ∧ (∀ (len : Nat) (elems : List Value) (body : List Nat),
        serializeElems elems = Except.ok body →
        serializeValue (Value.vTuple len elems) =
          Except.ok (serialize_tuple_header len ++ body)) := by
  constructor
  · rfl
  · intro len elems body h
    rw [serializeValue, h]
    simp [Static_end]

/-- Witness for claim C10: a tuple declared with length 3 but given zero
elements still closes successfully with no extra bytes. -/
theorem static_writer_count_unchecked_witness :
    serializeElems [] = Except.ok [] ∧
    serializeValue (Value.vTuple 3 []) = Except.ok (serialize_tuple_header 3 ++ []) :=
  ⟨serializeElems_nil, static_writer_count_unchecked.2 3 [] [] serializeElems_nil⟩
